import Mathlib

/-!
Verification of `lambda_function.py` (HTB_Rankings): a daily-cached proxy
for the Hack The Box ranking API.  The Python source is shallowly embedded:

* Python values that flow through the program (JSON bodies, DynamoDB items,
  `profile.get(...)` results) are modelled by `PyVal`; a Python dict is an
  association list with unique keys (`Obj`), looked up first-match.
* The external world is passed in explicitly: environment variables (`Env`),
  the two upstream HTTP responses (`HttpResp`, carrying `status_code` and the
  parsed `.json()` object), and the behaviour of the two DynamoDB operations
  (`GetItemResult`, `PutItemResult`).
* Uncaught Python exceptions are modelled with `Except PyErr`: `boto3`
  client errors escaping a `put_item` that is not wrapped in `try`, and
  `AttributeError`/`TypeError` from `.get` chains on non-dict JSON values.
* The handler output records the returned mapping together with the side
  effects performed (store reads, items passed to `put_item`, whether the
  fetcher ran and how many upstream HTTP calls it made).
-/

/-- A Python value as used by the program: `None`, strings, integers,
dicts and lists (the shapes occurring in the JSON bodies and DynamoDB
items this code manipulates). -/
inductive PyVal where
  | pnone
  | pstr (s : String)
  | pint (n : Int)
  | pobj (fields : List (String × PyVal))
  | plist (xs : List PyVal)

/-- A Python dict: association list with unique keys, first match wins. -/
abbrev Obj := List (String × PyVal)

/-- Python `d.get(k)`: the value at `k`, or `None` when absent. -/
def dictGet : Obj → String → PyVal
  | [], _ => .pnone
  | (k', v) :: rest, k => if k' = k then v else dictGet rest k

/-- Python `d.get(k, default)`. -/
def dictGetD : Obj → String → PyVal → PyVal
  | [], _, d => d
  | (k', v) :: rest, k, d => if k' = k then v else dictGetD rest k d

/-- Python `d[k] = v`: replace the first binding of `k`, or append. -/
def dictSet : Obj → String → PyVal → Obj
  | [], k, v => [(k, v)]
  | (k', v') :: rest, k, v =>
      if k' = k then (k, v) :: rest else (k', v') :: dictSet rest k v

/-- Python `d.update(u)`: set every binding of `u` into `d` in order. -/
def dictUpdate (d : Obj) (u : Obj) : Obj :=
  u.foldl (fun acc kv => dictSet acc kv.1 kv.2) d

/-- Python `d.pop(k, None)` restricted to its effect on the dict:
remove the binding of `k`. -/
def dictPop : Obj → String → Obj
  | [], _ => []
  | (k', v) :: rest, k =>
      if k' = k then dictPop rest k else (k', v) :: dictPop rest k

/-- Python `k in d`. -/
def hasKey : Obj → String → Bool
  | [], _ => false
  | (k', _) :: rest, k => (k' == k) || hasKey rest k

mutual
/-- Python `==` on the modelled values (structural; dicts compare as the
ordered association lists the program builds). -/
def pyEq : PyVal → PyVal → Bool
  | .pnone, .pnone => true
  | .pstr a, .pstr b => a == b
  | .pint a, .pint b => a == b
  | .pobj fs, .pobj gs => pyEqObj fs gs
  | .plist xs, .plist ys => pyEqList xs ys
  | _, _ => false

def pyEqObj : List (String × PyVal) → List (String × PyVal) → Bool
  | [], [] => true
  | (k, v) :: fs, (k', v') :: gs => k == k' && pyEq v v' && pyEqObj fs gs
  | _, _ => false

def pyEqList : List PyVal → List PyVal → Bool
  | [], [] => true
  | x :: xs, y :: ys => pyEq x y && pyEqList xs ys
  | _, _ => false
end

/-- Python `v is None`. -/
def PyVal.isPyNone : PyVal → Bool
  | .pnone => true
  | _ => false

/-- The environment variables the program reads (`os.environ.get`). -/
structure Env where
  TABLE_NAME : Option String
  USER_ID : Option String
  TOKEN : Option String

/-- Python truthiness test `not s` on an `os.environ.get` result:
true on `None` and on the empty string. -/
def strFalsy : Option String → Bool
  | none => true
  | some s => s == ""

/-- An upstream HTTP response as the code consumes it: `status_code`
and the object returned by `.json()` (both endpoints return JSON
objects per the upstream contract). -/
structure HttpResp where
  status_code : Int
  json : Obj

/-- Outcome of `table.get_item(Key=...)`: a response that may or may
not contain an `"Item"`, or a raised client exception. -/
inductive GetItemResult where
  | ok (item : Option Obj)
  | raise

/-- Outcome of `table.put_item(Item=...)`: success or a raised client
exception. -/
inductive PutItemResult where
  | ok
  | raise

/-- Uncaught Python exceptions the embedding tracks. -/
inductive PyErr where
  | attributeError
  | typeError
  | clientError
deriving DecidableEq

/-- What one run of `get_rankings_from_htb` produced: the returned value
(`None` or the `User_Info` dict) and which of the two upstream HTTP
calls were made. -/
structure FetchResult where
  data : Option Obj
  profileCalled : Bool
  countryCalled : Bool

/-- The six `User_Info` assignments made from the profile object
(lines 114-119 of the source). -/
def profileInfo (profile : Obj) : Obj :=
  [("System_Owns", dictGet profile "system_owns"),
   ("User_Owns", dictGet profile "user_owns"),
   ("System_Bloods", dictGet profile "system_bloods"),
   ("User_Bloods", dictGet profile "user_bloods"),
   ("Rank", dictGet profile "rank"),
   ("User_Global_Rank", dictGet profile "ranking")]

/-- Lines 106-119: the profile request and the `if status_code == 200`
block.  Yields `(USERNAME, COUNTRYCODE, User_Info)` as they stand after
the block; `profile.get(...)` on a non-dict `"profile"` value raises
`AttributeError`. -/
def profileStep (userResp : HttpResp) : Except PyErr (PyVal × PyVal × Obj) :=
  if userResp.status_code = 200 then
    match dictGetD userResp.json "profile" (.pobj []) with
    | .pobj profile =>
        .ok (dictGet profile "name", dictGet profile "country_code",
             profileInfo profile)
    | _ => .error .attributeError
  else
    .ok (.pnone, .pnone, [])

/-- Lines 130-133: the `for ranking in ...rankings` loop.  Returns the
`rank` of the first entry whose `name` equals `username` (the loop
breaks there), `none` when no entry matches; a non-dict entry raises
`AttributeError` at `ranking.get`. -/
def scanRankings : List PyVal → PyVal → Except PyErr (Option PyVal)
  | [], _ => .ok none
  | x :: rest, username =>
      match x with
      | .pobj r =>
          if pyEq (dictGet r "name") username then
            .ok (some (dictGet r "rank"))
          else
            scanRankings rest username
      | _ => .error .attributeError

/-- Lines 126-133: the country-rankings request and the scan loop,
updating `User_Info` with `Local_Rank` when a match is found.  The
`.json().get("data", {}).get("rankings", [])` chain raises on a
non-dict `"data"` value; iterating a non-list `"rankings"` value is
modelled as `TypeError`. -/
def countryStep (countryResp : HttpResp) (username : PyVal) (info : Obj) :
    Except PyErr Obj :=
  if countryResp.status_code = 200 then
    match dictGetD countryResp.json "data" (.pobj []) with
    | .pobj d =>
        match dictGetD d "rankings" (.plist []) with
        | .plist xs =>
            match scanRankings xs username with
            | .error e => .error e
            | .ok (some r) => .ok (dictSet info "Local_Rank" r)
            | .ok none => .ok info
        | _ => .error .typeError
    | _ => .error .attributeError
  else
    .ok info

/-- `get_rankings_from_htb` (lines 71-135).  Takes the environment and
the two upstream responses; returns the dict of metrics or `None`
(Python `None`, modelled as `data = none`), tracking which HTTP calls
were made. -/
def get_rankings_from_htb (env : Env) (userResp countryResp : HttpResp) :
    Except PyErr FetchResult :=
  if env.TOKEN.isNone || env.USER_ID.isNone then
    .ok ⟨none, false, false⟩
  else
    match profileStep userResp with
    | .error e => .error e
    | .ok (username, countrycode, info) =>
        if username.isPyNone || countrycode.isPyNone then
          .ok ⟨none, true, false⟩
        else
          match countryStep countryResp username info with
          | .error e => .error e
          | .ok info' => .ok ⟨some info', true, true⟩

/-- What one handler invocation returned and the side effects it
performed: the returned mapping, whether `get_item` ran, the items
passed to `put_item` (in order), whether the fetcher ran, and the
number of upstream HTTP calls. -/
structure HandlerOut where
  ret : Obj
  storeRead : Bool
  writesAttempted : List Obj
  fetchInvoked : Bool
  upstreamCalls : Nat

/-- `lambda_handler` (lines 15-68).  `today_str` is `date.today().isoformat()`;
`getRes`/`putRes` are the behaviours of the at-most-one `get_item` and
`put_item` this invocation performs.  The `put_item` on the failed-fetch
path (line 55) is not inside a `try`, so its exception propagates; the
one on the success path (line 61) is caught and ignored. -/
def lambda_handler (env : Env) (today_str : String)
    (getRes : GetItemResult) (putRes : PutItemResult)
    (userResp countryResp : HttpResp) : Except PyErr HandlerOut :=
  if strFalsy env.TABLE_NAME then
    .ok ⟨[("error", .pstr "TABLE_NAME not configured")], false, [], false, 0⟩
  else
    match getRes with
    | .raise =>
        .ok ⟨[("error", .pstr "Database lookup failed")], true, [], false, 0⟩
    | .ok (some item) =>
        .ok ⟨dictPop item "date", true, [], false, 0⟩
    | .ok none =>
        match get_rankings_from_htb env userResp countryResp with
        | .error e => .error e
        | .ok f =>
            match f.data with
            | none =>
                match putRes with
                | .raise => .error .clientError
                | .ok =>
                    .ok ⟨[("error", .pstr "Could not retrieve rankings")],
                         true, [[("date", .pstr today_str)]], true,
                         (if f.profileCalled then 1 else 0) +
                         (if f.countryCalled then 1 else 0)⟩
            | some data =>
                .ok ⟨data, true,
                     [dictUpdate [("date", .pstr today_str)] data], true,
                     (if f.profileCalled then 1 else 0) +
                     (if f.countryCalled then 1 else 0)⟩

/-- Spec-side (§4.2 step 5): the `rank` of the first entry of the
country ranking list whose `name` equals the fetched username, in list
order; `none` when no entry matches. -/
def firstMatchRank (entries : List Obj) (username : PyVal) : Option PyVal :=
  (entries.find? (fun r => pyEq (dictGet r "name") username)).map
    (fun r => dictGet r "rank")

/-- Spec-side (§4.2): the disjunction of upstream-failure conditions
under which the Fetcher is specified to return no data, phrased over
the profile object `P` of the profile response. -/
def fetchFail (env : Env) (userResp : HttpResp) (P : Obj) : Bool :=
  env.TOKEN.isNone || env.USER_ID.isNone || userResp.status_code != 200 ||
  (dictGet P "name").isPyNone || (dictGet P "country_code").isPyNone

/-- The value is a JSON object. -/
def isObj : PyVal → Bool
  | .pobj _ => true
  | _ => false

/-- Well-formedness of a country-rankings body per the upstream contract
(§6): `data` is an object whose `rankings` is a list of objects (with the
code's defaults `{}`/`[]` for absent keys). -/
def countryWf (j : Obj) : Bool :=
  match dictGetD j "data" (.pobj []) with
  | .pobj d =>
      match dictGetD d "rankings" (.plist []) with
      | .plist xs => xs.all isObj
      | _ => false
  | _ => false

/-! ### Dictionary lemmas -/

theorem hasKey_dictPop (d : Obj) (k : String) :
    hasKey (dictPop d k) k = false := by
  induction d with
  | nil => rfl
  | cons p rest ih =>
      cases p with
      | mk a b =>
          by_cases h : a = k
          · simp [dictPop, h, ih]
          · simp [dictPop, hasKey, h, ih]

theorem dictGet_dictPop_ne (d : Obj) (k k' : String) (h : k' ≠ k) :
    dictGet (dictPop d k) k' = dictGet d k' := by
  induction d with
  | nil => rfl
  | cons p rest ih =>
      cases p with
      | mk a b =>
          by_cases hk : a = k
          · simp [dictPop, dictGet, hk, Ne.symm h, ih]
          · by_cases hk' : a = k'
            · simp [dictPop, dictGet, hk, hk', h]
            · simp [dictPop, dictGet, hk, hk', ih]

theorem dictGet_dictSet_ne (d : Obj) (k k' : String) (v : PyVal)
    (h : k' ≠ k) : dictGet (dictSet d k v) k' = dictGet d k' := by
  induction d with
  | nil => simp [dictSet, dictGet, Ne.symm h]
  | cons p rest ih =>
      cases p with
      | mk a b =>
          by_cases hk : a = k
          · simp [dictSet, dictGet, hk, Ne.symm h]
          · by_cases hk' : a = k'
            · simp [dictSet, dictGet, hk, hk', h]
            · simp [dictSet, dictGet, hk, hk', ih]

theorem hasKey_dictSet (d : Obj) (k k' : String) (v : PyVal) :
    hasKey (dictSet d k v) k' = (hasKey d k' || (k == k')) := by
  induction d with
  | nil => simp [dictSet, hasKey]
  | cons p rest ih =>
      cases p with
      | mk a b =>
          by_cases hk : a = k
          · simp only [dictSet, hasKey, hk, if_pos rfl]
            cases hrest : hasKey rest k' <;> cases hkk : (k == k') <;> simp_all
          · simp [dictSet, hasKey, hk, ih, Bool.or_assoc]

/-! ### Fetcher lemmas -/

theorem exists_map_of_all_isObj (xs : List PyVal)
    (h : ∀ x ∈ xs, isObj x = true) :
    ∃ es : List Obj, xs = es.map PyVal.pobj := by
  induction xs with
  | nil => exact ⟨[], rfl⟩
  | cons x rest ih =>
      obtain ⟨es, he⟩ := ih (fun y hy => h y (List.mem_cons_of_mem _ hy))
      have hx := h x (List.mem_cons_self _ _)
      cases x with
      | pobj fs => exact ⟨fs :: es, by simp [he]⟩
      | pnone => simp [isObj] at hx
      | pstr s => simp [isObj] at hx
      | pint n => simp [isObj] at hx
      | plist l => simp [isObj] at hx

theorem scanRankings_map (es : List Obj) (u : PyVal) :
    scanRankings (es.map PyVal.pobj) u = .ok (firstMatchRank es u) := by
  induction es with
  | nil => rfl
  | cons e rest ih =>
      by_cases h : pyEq (dictGet e "name") u = true
      · simp [scanRankings, firstMatchRank, h]
      · simp [scanRankings, firstMatchRank, h, ih]

theorem countryWf_elim (j : Obj) (h : countryWf j = true) :
    ∃ (d : Obj) (es : List Obj), dictGetD j "data" (.pobj []) = .pobj d ∧
      dictGetD d "rankings" (.plist []) = .plist (es.map PyVal.pobj) := by
  unfold countryWf at h
  cases hd : dictGetD j "data" (.pobj []) <;> simp only [hd] at h <;> try simp at h
  case pobj d =>
    cases hr : dictGetD d "rankings" (.plist []) <;> simp only [hr] at h <;>
      try simp at h
    case plist xs =>
      obtain ⟨es, he⟩ := exists_map_of_all_isObj xs h
      exact ⟨d, es, rfl, he ▸ hr⟩

theorem countryStep_eq (c : HttpResp) (u : PyVal) (info : Obj) (d : Obj)
    (es : List Obj) (hs : c.status_code = 200)
    (hd : dictGetD c.json "data" (.pobj []) = .pobj d)
    (hr : dictGetD d "rankings" (.plist []) = .plist (es.map PyVal.pobj)) :
    countryStep c u info = .ok (match firstMatchRank es u with
      | some r => dictSet info "Local_Rank" r
      | none => info) := by
  unfold countryStep
  rw [if_pos hs]
  simp only [hd, hr, scanRankings_map]
  cases firstMatchRank es u <;> rfl

theorem countryStep_wf (c : HttpResp) (u : PyVal) (info : Obj)
    (h : countryWf c.json = true) :
    ∃ info', countryStep c u info = .ok info' ∧
      (info' = info ∨ ∃ r, info' = dictSet info "Local_Rank" r) := by
  by_cases hs : c.status_code = 200
  · obtain ⟨d, es, hd, hr⟩ := countryWf_elim _ h
    rw [countryStep_eq c u info d es hs hd hr]
    cases hm : firstMatchRank es u with
    | none => exact ⟨info, rfl, Or.inl rfl⟩
    | some r => exact ⟨dictSet info "Local_Rank" r, rfl, Or.inr ⟨r, rfl⟩⟩
  · refine ⟨info, ?_, Or.inl rfl⟩
    unfold countryStep
    rw [if_neg hs]

theorem dictGet_dictSet_self (d : Obj) (k : String) (v : PyVal) :
    dictGet (dictSet d k v) k = v := by
  induction d with
  | nil => simp [dictSet, dictGet]
  | cons p rest ih =>
      cases p with
      | mk a b =>
          by_cases hk : a = k
          · simp [dictSet, dictGet, hk]
          · simp [dictSet, dictGet, hk, ih]

theorem fetch_creds_missing (env : Env) (u c : HttpResp)
    (h : (env.TOKEN.isNone || env.USER_ID.isNone) = true) :
    get_rankings_from_htb env u c = .ok ⟨none, false, false⟩ := by
  unfold get_rankings_from_htb
  rw [if_pos h]

theorem fetch_profile_non200 (env : Env) (u c : HttpResp)
    (hcred : (env.TOKEN.isNone || env.USER_ID.isNone) = false)
    (hs : ¬ u.status_code = 200) :
    get_rankings_from_htb env u c = .ok ⟨none, true, false⟩ := by
  unfold get_rankings_from_htb profileStep
  rw [if_neg (by simp [hcred]), if_neg hs]
  rfl

theorem fetch_incomplete_profile (env : Env) (u c : HttpResp) (P : Obj)
    (hcred : (env.TOKEN.isNone || env.USER_ID.isNone) = false)
    (hs : u.status_code = 200)
    (hP : dictGetD u.json "profile" (.pobj []) = .pobj P)
    (hnc : ((dictGet P "name").isPyNone ||
            (dictGet P "country_code").isPyNone) = true) :
    get_rankings_from_htb env u c = .ok ⟨none, true, false⟩ := by
  unfold get_rankings_from_htb profileStep
  rw [if_neg (by simp [hcred]), if_pos hs]
  simp only [hP]
  simp [hnc]

theorem fetch_success_eq (env : Env) (u c : HttpResp) (P : Obj)
    (hcred : (env.TOKEN.isNone || env.USER_ID.isNone) = false)
    (hs : u.status_code = 200)
    (hP : dictGetD u.json "profile" (.pobj []) = .pobj P)
    (hnc : ((dictGet P "name").isPyNone ||
            (dictGet P "country_code").isPyNone) = false) :
    get_rankings_from_htb env u c =
      match countryStep c (dictGet P "name") (profileInfo P) with
      | .error e => .error e
      | .ok info' => .ok ⟨some info', true, true⟩ := by
  unfold get_rankings_from_htb profileStep
  rw [if_neg (by simp [hcred]), if_pos hs]
  simp only [hP]
  simp [hnc]

theorem profileStep_ok_shape (u : HttpResp) (un cc : PyVal) (info : Obj)
    (h : profileStep u = .ok (un, cc, info)) :
    (un = .pnone ∧ info = []) ∨
    ∃ P : Obj, dictGetD u.json "profile" (.pobj []) = .pobj P ∧
      un = dictGet P "name" ∧ info = profileInfo P := by
  unfold profileStep at h
  by_cases hs : u.status_code = 200
  · rw [if_pos hs] at h
    cases hP : dictGetD u.json "profile" (.pobj []) with
    | pobj P =>
        simp only [hP] at h
        simp at h
        obtain ⟨h1, h2, h3⟩ := h
        exact Or.inr ⟨P, rfl, h1.symm, h3.symm⟩
    | pnone => simp only [hP] at h; simp at h
    | pstr s => simp only [hP] at h; simp at h
    | pint n => simp only [hP] at h; simp at h
    | plist l => simp only [hP] at h; simp at h
  · rw [if_neg hs] at h
    simp at h
    exact Or.inl ⟨h.1.symm, h.2.2⟩

theorem countryStep_ok_shape (c : HttpResp) (un : PyVal) (info info' : Obj)
    (h : countryStep c un info = .ok info') :
    info' = info ∨ ∃ r, info' = dictSet info "Local_Rank" r := by
  unfold countryStep at h
  by_cases hs : c.status_code = 200
  · rw [if_pos hs] at h
    cases hd : dictGetD c.json "data" (.pobj []) with
    | pobj d =>
        simp only [hd] at h
        cases hr : dictGetD d "rankings" (.plist []) with
        | plist xs =>
            simp only [hr] at h
            cases hsc : scanRankings xs un with
            | error e => simp only [hsc] at h; simp at h
            | ok o =>
                simp only [hsc] at h
                cases o with
                | none => simp at h; exact Or.inl h.symm
                | some r => simp at h; exact Or.inr ⟨r, h.symm⟩
        | pnone => simp only [hr] at h; simp at h
        | pstr s => simp only [hr] at h; simp at h
        | pint n => simp only [hr] at h; simp at h
        | pobj d2 => simp only [hr] at h; simp at h
    | pnone => simp only [hd] at h; simp at h
    | pstr s => simp only [hd] at h; simp at h
    | pint n => simp only [hd] at h; simp at h
    | plist l => simp only [hd] at h; simp at h
  · rw [if_neg hs] at h
    simp at h
    exact Or.inl h.symm

theorem fetch_ok_shape (env : Env) (u c : HttpResp) (f : FetchResult)
    (h : get_rankings_from_htb env u c = .ok f) :
    f.data = none ∨ ∃ P : Obj,
      (f.data = some (profileInfo P) ∨
       ∃ r, f.data = some (dictSet (profileInfo P) "Local_Rank" r)) := by
  unfold get_rankings_from_htb at h
  by_cases hcred : (env.TOKEN.isNone || env.USER_ID.isNone) = true
  · rw [if_pos hcred] at h
    simp at h
    rw [← h]
    exact Or.inl rfl
  · rw [if_neg hcred] at h
    cases hp : profileStep u with
    | error e => rw [hp] at h; simp at h
    | ok t =>
        obtain ⟨un, cc, info⟩ := t
        rw [hp] at h
        by_cases hnc : (un.isPyNone || cc.isPyNone) = true
        · simp only [hnc, if_pos] at h
          simp at h
          rw [← h]
          exact Or.inl rfl
        · simp only [hnc] at h
          rw [if_neg (by simp [hnc])] at h
          cases hcs : countryStep c un info with
          | error e => rw [hcs] at h; simp at h
          | ok info' =>
              rw [hcs] at h
              simp at h
              rcases profileStep_ok_shape u un cc info hp with
                ⟨hun, hinfo⟩ | ⟨P, _, _, hinfo⟩
              · rw [hun] at hnc
                simp [PyVal.isPyNone] at hnc
              · rcases countryStep_ok_shape c un info info' hcs with
                  hi | ⟨r, hi⟩
                · exact Or.inr ⟨P, Or.inl (by rw [← h, hi, hinfo])⟩
                · exact Or.inr ⟨P, Or.inr ⟨r, by rw [← h, hi, hinfo]⟩⟩

theorem hasKey_profileInfo_date (P : Obj) :
    hasKey (profileInfo P) "date" = false := rfl

theorem hasKey_profileInfo_local (P : Obj) :
    hasKey (profileInfo P) "Local_Rank" = false := rfl

theorem fetch_data_no_date (env : Env) (u c : HttpResp) (f : FetchResult)
    (M : Obj) (h : get_rankings_from_htb env u c = .ok f)
    (hd : f.data = some M) : hasKey M "date" = false := by
  rcases fetch_ok_shape env u c f h with hnone | ⟨P, hM | ⟨r, hM⟩⟩
  · rw [hnone] at hd; cases hd
  · rw [hM] at hd
    injection hd with hd
    rw [← hd]
    exact hasKey_profileInfo_date P
  · rw [hM] at hd
    injection hd with hd
    rw [← hd, hasKey_dictSet, hasKey_profileInfo_date]
    rfl

/-! ### Claim theorems -/

/-- C1: when the store lookup succeeds and a record for today is found,
the handler returns that record with only the `date` field removed and
all other fields unchanged, performs no store write, does not invoke the
fetcher, and makes no upstream HTTP call. -/
theorem C1_cache_hit_passthrough (env : Env) (today : String) (item : Obj)
    (putRes : PutItemResult) (u c : HttpResp)
    (hcfg : strFalsy env.TABLE_NAME = false) :
    lambda_handler env today (.ok (some item)) putRes u c =
      .ok ⟨dictPop item "date", true, [], false, 0⟩ ∧
    hasKey (dictPop item "date") "date" = false ∧
    ∀ k, k ≠ "date" → dictGet (dictPop item "date") k = dictGet item k := by
  refine ⟨?_, hasKey_dictPop item "date",
    fun k hk => dictGet_dictPop_ne item "date" k hk⟩
  unfold lambda_handler
  rw [if_neg (by simp [hcfg])]

/-- Witness for C1 at a concrete cached record. -/
theorem C1_cache_hit_passthrough_witness :
    lambda_handler ⟨some "T", none, none⟩ "2026-10-12"
        (.ok (some [("date", .pstr "2026-10-12"),
                    ("Rank", .pstr "Pro Hacker")]))
        .ok ⟨200, []⟩ ⟨200, []⟩ =
      .ok ⟨[("Rank", .pstr "Pro Hacker")], true, [], false, 0⟩ :=
  ((C1_cache_hit_passthrough ⟨some "T", none, none⟩ "2026-10-12"
      [("date", .pstr "2026-10-12"), ("Rank", .pstr "Pro Hacker")]
      .ok ⟨200, []⟩ ⟨200, []⟩ rfl).1).trans (by rfl)

/-- C2: on a cache miss where the fetcher returns no data and the store
write succeeds, the handler writes exactly one placeholder record whose
only field is `date = today`, and returns the fetch-error mapping. -/
theorem C2_failed_fetch_placeholder (env : Env) (today : String)
    (u c : HttpResp) (pc cc : Bool)
    (hcfg : strFalsy env.TABLE_NAME = false)
    (hf : get_rankings_from_htb env u c = .ok ⟨none, pc, cc⟩) :
    lambda_handler env today (.ok none) .ok u c =
      .ok ⟨[("error", .pstr "Could not retrieve rankings")], true,
           [[("date", .pstr today)]], true,
           (if pc then 1 else 0) + (if cc then 1 else 0)⟩ := by
  unfold lambda_handler
  rw [if_neg (by simp [hcfg])]
  simp only [hf]

/-- Witness for C2: missing credentials make the fetch fail. -/
theorem C2_failed_fetch_placeholder_witness :
    lambda_handler ⟨some "T", none, none⟩ "2026-10-12" (.ok none) .ok
        ⟨200, []⟩ ⟨200, []⟩ =
      .ok ⟨[("error", .pstr "Could not retrieve rankings")], true,
           [[("date", .pstr "2026-10-12")]], true, 0⟩ :=
  (C2_failed_fetch_placeholder ⟨some "T", none, none⟩ "2026-10-12"
      ⟨200, []⟩ ⟨200, []⟩ false false rfl rfl).trans (by rfl)

/-- C3 counterexample: the placeholder `put_item` (line 55) is not inside
a `try`; when it raises, the handler propagates the exception instead of
returning the fetch-error mapping the claim promises. -/
theorem C3_counterexample :
    lambda_handler ⟨some "T", none, none⟩ "2026-10-12" (.ok none) .raise
        ⟨200, []⟩ ⟨200, []⟩ = .error .clientError := rfl

/-- C3 (amended): if the placeholder write after a failed fetch itself
fails, the exception propagates out of the handler — the invocation
raises rather than returning the fetch-error mapping. -/
theorem C3_amended_placeholder_write_failure_raises (env : Env)
    (today : String) (u c : HttpResp) (pc cc : Bool)
    (hcfg : strFalsy env.TABLE_NAME = false)
    (hf : get_rankings_from_htb env u c = .ok ⟨none, pc, cc⟩) :
    lambda_handler env today (.ok none) .raise u c = .error .clientError := by
  unfold lambda_handler
  rw [if_neg (by simp [hcfg])]
  simp only [hf]

/-- Witness for the amended C3. -/
theorem C3_amended_placeholder_write_failure_raises_witness :
    lambda_handler ⟨some "Tbl", none, some "tok"⟩ "2026-01-01" (.ok none)
        .raise ⟨404, []⟩ ⟨404, []⟩ = .error .clientError :=
  C3_amended_placeholder_write_failure_raises ⟨some "Tbl", none, some "tok"⟩
    "2026-01-01" ⟨404, []⟩ ⟨404, []⟩ false false rfl rfl

/-- C4: on a cache miss where the fetcher returns metrics `M` and the
store write fails (raises), the handler still returns `M` unchanged. -/
theorem C4_write_failure_still_returns_data (env : Env) (today : String)
    (u c : HttpResp) (M : Obj) (pc cc : Bool)
    (hcfg : strFalsy env.TABLE_NAME = false)
    (hf : get_rankings_from_htb env u c = .ok ⟨some M, pc, cc⟩) :
    lambda_handler env today (.ok none) .raise u c =
      .ok ⟨M, true, [dictUpdate [("date", .pstr today)] M], true,
           (if pc then 1 else 0) + (if cc then 1 else 0)⟩ := by
  unfold lambda_handler
  rw [if_neg (by simp [hcfg])]
  simp only [hf]

/-- Witness for C4 at a concrete successful fetch with a raising write. -/
theorem C4_write_failure_still_returns_data_witness :
    lambda_handler ⟨some "T", some "1", some "t"⟩ "2026-10-12" (.ok none)
        .raise
        ⟨200, [("profile", .pobj [("name", .pstr "bob"),
                                  ("country_code", .pstr "UK")])]⟩
        ⟨500, []⟩ =
      .ok ⟨[("System_Owns", .pnone), ("User_Owns", .pnone),
            ("System_Bloods", .pnone), ("User_Bloods", .pnone),
            ("Rank", .pnone), ("User_Global_Rank", .pnone)], true,
           [[("date", .pstr "2026-10-12"), ("System_Owns", .pnone),
             ("User_Owns", .pnone), ("System_Bloods", .pnone),
             ("User_Bloods", .pnone), ("Rank", .pnone),
             ("User_Global_Rank", .pnone)]], true, 2⟩ :=
  (C4_write_failure_still_returns_data ⟨some "T", some "1", some "t"⟩
      "2026-10-12"
      ⟨200, [("profile", .pobj [("name", .pstr "bob"),
                                ("country_code", .pstr "UK")])]⟩
      ⟨500, []⟩
      [("System_Owns", .pnone), ("User_Owns", .pnone),
       ("System_Bloods", .pnone), ("User_Bloods", .pnone),
       ("Rank", .pnone), ("User_Global_Rank", .pnone)]
      true true rfl rfl).trans (by rfl)

/-- C7: with `TABLE_NAME` absent, the handler returns the configuration
error mapping and performs no store read, no store write, does not
invoke the fetcher, and makes no upstream HTTP call. -/
theorem C7_missing_config_short_circuits (env : Env) (today : String)
    (g : GetItemResult) (p : PutItemResult) (u c : HttpResp)
    (h : env.TABLE_NAME = none) :
    lambda_handler env today g p u c =
      .ok ⟨[("error", .pstr "TABLE_NAME not configured")], false, [],
           false, 0⟩ := by
  unfold lambda_handler
  rw [if_pos (by simp [strFalsy, h])]

/-- Witness for C7. -/
theorem C7_missing_config_short_circuits_witness :
    lambda_handler ⟨none, some "1", some "t"⟩ "2026-10-12" (.ok none) .ok
        ⟨200, []⟩ ⟨200, []⟩ =
      .ok ⟨[("error", .pstr "TABLE_NAME not configured")], false, [],
           false, 0⟩ :=
  C7_missing_config_short_circuits ⟨none, some "1", some "t"⟩ "2026-10-12"
    (.ok none) .ok ⟨200, []⟩ ⟨200, []⟩ rfl

/-- C8: when the store lookup raises, the handler returns the
database-lookup error mapping, does not invoke the fetcher, makes no
upstream HTTP call and writes nothing. -/
theorem C8_lookup_failure_aborts (env : Env) (today : String)
    (p : PutItemResult) (u c : HttpResp)
    (hcfg : strFalsy env.TABLE_NAME = false) :
    lambda_handler env today .raise p u c =
      .ok ⟨[("error", .pstr "Database lookup failed")], true, [],
           false, 0⟩ := by
  unfold lambda_handler
  rw [if_neg (by simp [hcfg])]

/-- Witness for C8. -/
theorem C8_lookup_failure_aborts_witness :
    lambda_handler ⟨some "T", some "1", some "t"⟩ "2026-10-12" .raise .ok
        ⟨200, []⟩ ⟨200, []⟩ =
      .ok ⟨[("error", .pstr "Database lookup failed")], true, [],
           false, 0⟩ :=
  C8_lookup_failure_aborts ⟨some "T", some "1", some "t"⟩ "2026-10-12" .ok
    ⟨200, []⟩ ⟨200, []⟩ rfl

/-- C5: the fetcher raises no exception (given contract-shaped bodies)
and returns no data exactly when the bearer token or user id is missing,
the profile endpoint is non-200, or the profile object lacks `name` or
`country_code`; otherwise its result carries a metrics mapping. -/
theorem C5_fetch_failure_conditions (env : Env) (u c : HttpResp) (P : Obj)
    (hP : dictGetD u.json "profile" (.pobj []) = .pobj P)
    (hwf : countryWf c.json = true) :
    (∀ e, get_rankings_from_htb env u c ≠ .error e) ∧
    ∀ f, get_rankings_from_htb env u c = .ok f →
      (f.data = none ↔ fetchFail env u P = true) := by
  have main : ∃ flit, get_rankings_from_htb env u c = .ok flit ∧
      (flit.data = none ↔ fetchFail env u P = true) := by
    by_cases hcred : (env.TOKEN.isNone || env.USER_ID.isNone) = true
    · refine ⟨⟨none, false, false⟩, fetch_creds_missing env u c hcred, ?_⟩
      have hff : fetchFail env u P = true := by
        unfold fetchFail
        cases htok : env.TOKEN.isNone with
        | true => simp
        | false =>
            cases huid : env.USER_ID.isNone with
            | true => simp
            | false => rw [htok, huid] at hcred; simp at hcred
      simp [hff]
    · have hcred0 : (env.TOKEN.isNone || env.USER_ID.isNone) = false :=
        Bool.eq_false_iff.mpr hcred
      have ht : env.TOKEN.isNone = false := by
        rcases Bool.or_eq_false_iff.mp hcred0 with ⟨h1, h2⟩; exact h1
      have hu : env.USER_ID.isNone = false := by
        rcases Bool.or_eq_false_iff.mp hcred0 with ⟨h1, h2⟩; exact h2
      by_cases hs : u.status_code = 200
      · by_cases hnc : ((dictGet P "name").isPyNone ||
            (dictGet P "country_code").isPyNone) = true
        · refine ⟨⟨none, true, false⟩,
            fetch_incomplete_profile env u c P hcred0 hs hP hnc, ?_⟩
          have hff : fetchFail env u P = true := by
            rcases (by simpa using hnc :
                (dictGet P "name").isPyNone = true ∨
                (dictGet P "country_code").isPyNone = true) with h | h <;>
              simp [fetchFail, h]
          simp [hff]
        · have hnc0 : ((dictGet P "name").isPyNone ||
              (dictGet P "country_code").isPyNone) = false := by
            simpa using hnc
          have hn : (dictGet P "name").isPyNone = false := by
            rcases Bool.or_eq_false_iff.mp hnc0 with ⟨h1, h2⟩; exact h1
          have hc2 : (dictGet P "country_code").isPyNone = false := by
            rcases Bool.or_eq_false_iff.mp hnc0 with ⟨h1, h2⟩; exact h2
          obtain ⟨info', hcs, hshape⟩ :=
            countryStep_wf c (dictGet P "name") (profileInfo P) hwf
          refine ⟨⟨some info', true, true⟩, ?_, ?_⟩
          · rw [fetch_success_eq env u c P hcred0 hs hP hnc0, hcs]
          · have hff : fetchFail env u P = false := by
              simp [fetchFail, ht, hu, hs, hn, hc2]
            simp [hff]
      · refine ⟨⟨none, true, false⟩,
          fetch_profile_non200 env u c hcred0 hs, ?_⟩
        have hff : fetchFail env u P = true := by
          simp [fetchFail, hs]
        simp [hff]
  obtain ⟨flit, hok, hiff⟩ := main
  refine ⟨fun e he => ?_, fun f hf => ?_⟩
  · rw [hok] at he
    exact Except.noConfusion he
  · rw [hok] at hf
    injection hf with hf
    exact hf ▸ hiff

/-- Witness for C5 applied at a complete profile and failed country call:
the result carries a metrics mapping and no failure condition holds. -/
theorem C5_fetch_failure_conditions_witness :
    ((⟨some [("System_Owns", .pnone), ("User_Owns", .pnone),
             ("System_Bloods", .pnone), ("User_Bloods", .pnone),
             ("Rank", .pnone), ("User_Global_Rank", .pnone)], true, true⟩ :
        FetchResult).data = none ↔
      fetchFail ⟨some "T", some "1", some "t"⟩
        ⟨200, [("profile", .pobj [("name", .pstr "bob"),
                                  ("country_code", .pstr "UK")])]⟩
        [("name", .pstr "bob"), ("country_code", .pstr "UK")] = true) :=
  (C5_fetch_failure_conditions ⟨some "T", some "1", some "t"⟩
      ⟨200, [("profile", .pobj [("name", .pstr "bob"),
                                ("country_code", .pstr "UK")])]⟩
      ⟨500, [("data", .pobj [("rankings", .plist [])])]⟩
      [("name", .pstr "bob"), ("country_code", .pstr "UK")] rfl rfl).2
    ⟨some [("System_Owns", .pnone), ("User_Owns", .pnone),
           ("System_Bloods", .pnone), ("User_Bloods", .pnone),
           ("Rank", .pnone), ("User_Global_Rank", .pnone)], true, true⟩ rfl

/-- C6: after a successful profile step, a 200 country call makes
`Local_Rank` the `rank` of the first list entry whose `name` equals the
fetched username (and that key then reads back that rank), while a
non-200 country call yields exactly the profile-derived fields; in both
cases the run succeeds, and the profile-derived mapping itself never
contains a `Local_Rank` key (so no match leaves it absent). -/
theorem C6_local_rank_first_match_or_omitted (env : Env) (u c : HttpResp)
    (P : Obj)
    (hcred : (env.TOKEN.isNone || env.USER_ID.isNone) = false)
    (hs : u.status_code = 200)
    (hP : dictGetD u.json "profile" (.pobj []) = .pobj P)
    (hnc : ((dictGet P "name").isPyNone ||
            (dictGet P "country_code").isPyNone) = false) :
    (∀ (d : Obj) (es : List Obj), c.status_code = 200 →
      dictGetD c.json "data" (.pobj []) = .pobj d →
      dictGetD d "rankings" (.plist []) = .plist (es.map PyVal.pobj) →
      get_rankings_from_htb env u c =
        .ok ⟨some (match firstMatchRank es (dictGet P "name") with
          | some r => dictSet (profileInfo P) "Local_Rank" r
          | none => profileInfo P), true, true⟩ ∧
      ∀ r, firstMatchRank es (dictGet P "name") = some r →
        dictGet (dictSet (profileInfo P) "Local_Rank" r) "Local_Rank" = r) ∧
    (¬ c.status_code = 200 →
      get_rankings_from_htb env u c = .ok ⟨some (profileInfo P), true, true⟩) ∧
    hasKey (profileInfo P) "Local_Rank" = false := by
  refine ⟨fun d es hc200 hd hr =>
      ⟨?_, fun r _ => dictGet_dictSet_self _ _ _⟩,
    fun hcn => ?_, hasKey_profileInfo_local P⟩
  · rw [fetch_success_eq env u c P hcred hs hP hnc,
        countryStep_eq c (dictGet P "name") (profileInfo P) d es hc200 hd hr]
  · rw [fetch_success_eq env u c P hcred hs hP hnc]
    unfold countryStep
    rw [if_neg hcn]

/-- Witness for C6 at a country list whose second entry matches. -/
theorem C6_local_rank_first_match_or_omitted_witness :
    get_rankings_from_htb ⟨some "T", some "1", some "t"⟩
        ⟨200, [("profile", .pobj [("name", .pstr "bob"),
                                  ("country_code", .pstr "UK")])]⟩
        ⟨200, [("data", .pobj [("rankings", .plist
            [.pobj [("name", .pstr "alice"), ("rank", .pint 1)],
             .pobj [("name", .pstr "bob"), ("rank", .pint 2)]])])]⟩ =
      .ok ⟨some [("System_Owns", .pnone), ("User_Owns", .pnone),
                 ("System_Bloods", .pnone), ("User_Bloods", .pnone),
                 ("Rank", .pnone), ("User_Global_Rank", .pnone),
                 ("Local_Rank", .pint 2)], true, true⟩ :=
  (((C6_local_rank_first_match_or_omitted ⟨some "T", some "1", some "t"⟩
      ⟨200, [("profile", .pobj [("name", .pstr "bob"),
                                ("country_code", .pstr "UK")])]⟩
      ⟨200, [("data", .pobj [("rankings", .plist
          [.pobj [("name", .pstr "alice"), ("rank", .pint 1)],
           .pobj [("name", .pstr "bob"), ("rank", .pint 2)]])])]⟩
      [("name", .pstr "bob"), ("country_code", .pstr "UK")]
      rfl rfl rfl rfl).1
    [("rankings", .plist
        [.pobj [("name", .pstr "alice"), ("rank", .pint 1)],
         .pobj [("name", .pstr "bob"), ("rank", .pint 2)]])]
    [[("name", .pstr "alice"), ("rank", .pint 1)],
     [("name", .pstr "bob"), ("rank", .pint 2)]]
    rfl rfl rfl).1).trans (by rfl)

/-- C9: with a 200 profile response and a successful run, each of the six
metric fields of the returned mapping equals the corresponding field of
the profile object: a field absent from `profile` reads as `None` on both
sides (no defaulting to zero), a present field is copied unchanged. -/
theorem C9_profile_fields_copied (env : Env) (u c : HttpResp) (P : Obj)
    (hcred : (env.TOKEN.isNone || env.USER_ID.isNone) = false)
    (hs : u.status_code = 200)
    (hP : dictGetD u.json "profile" (.pobj []) = .pobj P)
    (hnc : ((dictGet P "name").isPyNone ||
            (dictGet P "country_code").isPyNone) = false)
    (hwf : countryWf c.json = true) :
    ∀ f M, get_rankings_from_htb env u c = .ok f → f.data = some M →
      dictGet M "System_Owns" = dictGet P "system_owns" ∧
      dictGet M "User_Owns" = dictGet P "user_owns" ∧
      dictGet M "System_Bloods" = dictGet P "system_bloods" ∧
      dictGet M "User_Bloods" = dictGet P "user_bloods" ∧
      dictGet M "Rank" = dictGet P "rank" ∧
      dictGet M "User_Global_Rank" = dictGet P "ranking" := by
  intro f M hok hdata
  obtain ⟨info', hcs, hshape⟩ :=
    countryStep_wf c (dictGet P "name") (profileInfo P) hwf
  rw [fetch_success_eq env u c P hcred hs hP hnc, hcs] at hok
  injection hok with hok
  rw [← hok] at hdata
  simp at hdata
  rcases hshape with hi | ⟨r, hi⟩
  · rw [← hdata, hi]
    exact ⟨rfl, rfl, rfl, rfl, rfl, rfl⟩
  · rw [← hdata, hi]
    refine ⟨?_, ?_, ?_, ?_, ?_, ?_⟩ <;>
      exact (dictGet_dictSet_ne _ _ _ _ (by decide)).trans rfl

/-- Witness for C9: `system_owns` present in the profile, the other five
fields absent. -/
theorem C9_profile_fields_copied_witness :
    dictGet [("System_Owns", .pint 5), ("User_Owns", .pnone),
             ("System_Bloods", .pnone), ("User_Bloods", .pnone),
             ("Rank", .pnone), ("User_Global_Rank", .pnone)]
        "System_Owns" =
      dictGet [("name", .pstr "bob"), ("country_code", .pstr "UK"),
               ("system_owns", .pint 5)] "system_owns" ∧
    dictGet [("System_Owns", .pint 5), ("User_Owns", .pnone),
             ("System_Bloods", .pnone), ("User_Bloods", .pnone),
             ("Rank", .pnone), ("User_Global_Rank", .pnone)]
        "User_Owns" =
      dictGet [("name", .pstr "bob"), ("country_code", .pstr "UK"),
               ("system_owns", .pint 5)] "user_owns" ∧
    dictGet [("System_Owns", .pint 5), ("User_Owns", .pnone),
             ("System_Bloods", .pnone), ("User_Bloods", .pnone),
             ("Rank", .pnone), ("User_Global_Rank", .pnone)]
        "System_Bloods" =
      dictGet [("name", .pstr "bob"), ("country_code", .pstr "UK"),
               ("system_owns", .pint 5)] "system_bloods" ∧
    dictGet [("System_Owns", .pint 5), ("User_Owns", .pnone),
             ("System_Bloods", .pnone), ("User_Bloods", .pnone),
             ("Rank", .pnone), ("User_Global_Rank", .pnone)]
        "User_Bloods" =
      dictGet [("name", .pstr "bob"), ("country_code", .pstr "UK"),
               ("system_owns", .pint 5)] "user_bloods" ∧
    dictGet [("System_Owns", .pint 5), ("User_Owns", .pnone),
             ("System_Bloods", .pnone), ("User_Bloods", .pnone),
             ("Rank", .pnone), ("User_Global_Rank", .pnone)]
        "Rank" =
      dictGet [("name", .pstr "bob"), ("country_code", .pstr "UK"),
               ("system_owns", .pint 5)] "rank" ∧
    dictGet [("System_Owns", .pint 5), ("User_Owns", .pnone),
             ("System_Bloods", .pnone), ("User_Bloods", .pnone),
             ("Rank", .pnone), ("User_Global_Rank", .pnone)]
        "User_Global_Rank" =
      dictGet [("name", .pstr "bob"), ("country_code", .pstr "UK"),
               ("system_owns", .pint 5)] "ranking" :=
  C9_profile_fields_copied ⟨some "T", some "1", some "t"⟩
    ⟨200, [("profile", .pobj [("name", .pstr "bob"),
                              ("country_code", .pstr "UK"),
                              ("system_owns", .pint 5)])]⟩
    ⟨500, [("data", .pobj [("rankings", .plist [])])]⟩
    [("name", .pstr "bob"), ("country_code", .pstr "UK"),
     ("system_owns", .pint 5)]
    rfl rfl rfl rfl rfl
    ⟨some [("System_Owns", .pint 5), ("User_Owns", .pnone),
           ("System_Bloods", .pnone), ("User_Bloods", .pnone),
           ("Rank", .pnone), ("User_Global_Rank", .pnone)], true, true⟩
    [("System_Owns", .pint 5), ("User_Owns", .pnone),
     ("System_Bloods", .pnone), ("User_Bloods", .pnone),
     ("Rank", .pnone), ("User_Global_Rank", .pnone)]
    rfl rfl

/-- C10: on every non-raising return path of the handler, the returned
mapping contains no `date` key. -/
theorem C10_no_date_key (env : Env) (today : String) (g : GetItemResult)
    (p : PutItemResult) (u c : HttpResp) (out : HandlerOut)
    (h : lambda_handler env today g p u c = .ok out) :
    hasKey out.ret "date" = false := by
  unfold lambda_handler at h
  by_cases hcfg : strFalsy env.TABLE_NAME = true
  · rw [if_pos hcfg] at h
    simp at h
    rw [← h]
    rfl
  · rw [if_neg hcfg] at h
    cases g with
    | raise =>
        simp at h
        rw [← h]
        rfl
    | ok oitem =>
        cases oitem with
        | some item =>
            simp at h
            rw [← h]
            exact hasKey_dictPop item "date"
        | none =>
            cases hf : get_rankings_from_htb env u c with
            | error e => simp only [hf] at h; simp at h
            | ok f =>
                simp only [hf] at h
                cases hdata : f.data with
                | none =>
                    simp only [hdata] at h
                    cases p with
                    | raise => simp at h
                    | ok =>
                        simp at h
                        rw [← h]
                        rfl
                | some data =>
                    simp only [hdata] at h
                    simp at h
                    rw [← h]
                    exact fetch_data_no_date env u c f data hf hdata

/-- Witness for C10 on a concrete cache-hit invocation. -/
theorem C10_no_date_key_witness :
    hasKey (HandlerOut.ret ⟨[("Rank", .pstr "x")], true, [], false, 0⟩)
      "date" = false :=
  C10_no_date_key ⟨some "T", none, none⟩ "2026-10-12"
    (.ok (some [("date", .pstr "2026-10-12"), ("Rank", .pstr "x")])) .ok
    ⟨200, []⟩ ⟨200, []⟩ ⟨[("Rank", .pstr "x")], true, [], false, 0⟩ rfl
